import Mathlib

/-!
Shallow embedding of the gomodoro pomodoro engine (Go) and proofs about it.

The embedding covers:
* the countdown timer of `package timer` (the thread-safe timer shipped with
  the CLI, `src/main.go`, second compilation unit);
* the configuration of `package config` with its `Validate` and
  `GetNextBreakType` (full source quoted in `src/core/README.md`);
* the statistics accumulator of `package stats` (`src/stats/stats.go`);
* the session engine of `package engine` (`src/core/engine/engine.go`);
* the event bus of `package events` (`src/events/events.go`).

Durations are modelled as `Int` nanoseconds, exactly the representation of
Go's `time.Duration` (an `int64` count of nanoseconds).  Wall-clock fields
(`startedAt`, `pausedAt`, `totalPaused`, `sessionStartTime`, event
timestamps) only feed derived real-time values that no statement below
mentions; they are omitted from the state records, and every transition
below is the source transition restricted to the remaining fields.
-/

namespace Gomodoro

/-- Go's `time.Second` in nanoseconds. -/
def second : Int := 1000000000

/-- Go's `time.Minute` in nanoseconds. -/
def minute : Int := 60 * second

/-! ### Countdown timer (`package timer`, src/main.go) -/

/-- Timer states, mirroring `timer.State` (`StateIdle` … `StateDone`). -/
inductive TimerState
  | idle
  | running
  | paused
  | skipped
  | done
deriving DecidableEq, Repr

/-- The countdown timer: `duration` is fixed at creation, `remaining` is
mutated by `Tick`.  The Go struct's wall-clock bookkeeping fields and its
notification channels are omitted (see module comment). -/
structure Timer where
  duration : Int
  remaining : Int
  state : TimerState
deriving DecidableEq, Repr

/-- Mirrors `timer.NewTimer`: remaining starts at the full duration, state
starts at idle. -/
def NewTimer (duration : Int) : Timer :=
  { duration := duration, remaining := duration, state := TimerState.idle }

/-- Mirrors `Timer.Start`: a no-op unless idle or paused, otherwise the state
becomes running.  (The timestamp bookkeeping of the source is dropped.) -/
def Timer.Start (t : Timer) : Timer :=
  if t.state ≠ TimerState.idle ∧ t.state ≠ TimerState.paused then t
  else { t with state := TimerState.running }

/-- Mirrors `Timer.Pause`: a no-op unless running. -/
def Timer.Pause (t : Timer) : Timer :=
  if t.state ≠ TimerState.running then t
  else { t with state := TimerState.paused }

/-- Mirrors `Timer.Resume`, which just calls `Start`. -/
def Timer.Resume (t : Timer) : Timer :=
  t.Start

/-- Mirrors `Timer.Skip`: running or paused becomes skipped, otherwise a
no-op.  (The non-blocking send on `skipChan` carries no state.) -/
def Timer.Skip (t : Timer) : Timer :=
  if t.state = TimerState.running ∨ t.state = TimerState.paused then
    { t with state := TimerState.skipped }
  else t

/-- Mirrors `Timer.Stop`: state forced to idle, remaining restored to the
full duration. -/
def Timer.Stop (t : Timer) : Timer :=
  { t with state := TimerState.idle, remaining := t.duration }

/-- Mirrors `Timer.Reset`: remaining restored, state idle (the context and
timestamp resets concern omitted fields only). -/
def Timer.Reset (t : Timer) : Timer :=
  { t with remaining := t.duration, state := TimerState.idle }

/-- Mirrors the mutation of `Timer.Tick`: when running with remaining > 0,
subtract one second; if the result is ≤ 0 the state becomes done.  (In the
source `Tick` additionally returns a snapshot, modelled separately.) -/
def Timer.Tick (t : Timer) : Timer :=
  if t.state = TimerState.running ∧ t.remaining > 0 then
    let r := t.remaining - second
    if r ≤ 0 then { t with remaining := r, state := TimerState.done }
    else { t with remaining := r }
  else t

/-- Progress ratio of `createSnapshot`:
`float64(t.duration-t.remaining) / float64(t.duration)` when duration > 0,
otherwise 0; modelled over ℚ. -/
def Timer.Progress (t : Timer) : ℚ :=
  if t.duration > 0 then ((t.duration - t.remaining : Int) : ℚ) / ((t.duration : Int) : ℚ)
  else 0

/-- Iterated `Tick`: `tickN n t` is `t` after `n` consecutive ticks. -/
def tickN : Nat → Timer → Timer
  | 0, t => t
  | n + 1, t => tickN n t.Tick

/-- The public timer operations, for quantifying over call sequences. -/
inductive TimerOp
  | start
  | pause
  | resume
  | skip
  | stop
  | reset
  | tick
deriving DecidableEq, Repr

/-- Apply one timer operation. -/
def applyTimerOp (t : Timer) : TimerOp → Timer
  | TimerOp.start => t.Start
  | TimerOp.pause => t.Pause
  | TimerOp.resume => t.Resume
  | TimerOp.skip => t.Skip
  | TimerOp.stop => t.Stop
  | TimerOp.reset => t.Reset
  | TimerOp.tick => t.Tick

/-- Apply a sequence of timer operations, first element first. -/
def applyTimerOps (t : Timer) (ops : List TimerOp) : Timer :=
  ops.foldl applyTimerOp t

/-! ### Configuration (`package config`, quoted in src/core/README.md) -/

/-- Mirrors `config.Config`: three durations (nanoseconds) and the
long-break interval. -/
structure Config where
  WorkDuration : Int
  ShortBreak : Int
  LongBreak : Int
  LongBreakInterval : Int
deriving DecidableEq, Repr

/-- Mirrors `config.ValidationError` (field name and message). -/
structure ValidationError where
  Field : String
  Message : String
deriving DecidableEq, Repr

/-- Mirrors `config.DefaultConfig`. -/
def DefaultConfig : Config :=
  { WorkDuration := 25 * minute
    ShortBreak := 5 * minute
    LongBreak := 15 * minute
    LongBreakInterval := 4 }

/-- Mirrors `Config.Validate`: the exact chain of range checks of the
source, returning the first failing check's error, `none` on success. -/
def Config.Validate (c : Config) : Option ValidationError :=
  if c.WorkDuration < 1 * minute then
    some { Field := "WorkDuration", Message := "must be at least 1 minute" }
  else if c.WorkDuration > 120 * minute then
    some { Field := "WorkDuration", Message := "must be less than 2 hours" }
  else if c.ShortBreak < 1 * minute then
    some { Field := "ShortBreak", Message := "must be at least 1 minute" }
  else if c.ShortBreak > 30 * minute then
    some { Field := "ShortBreak", Message := "must be less than 30 minutes" }
  else if c.LongBreak < 5 * minute then
    some { Field := "LongBreak", Message := "must be at least 5 minutes" }
  else if c.LongBreak > 60 * minute then
    some { Field := "LongBreak", Message := "must be less than 1 hour" }
  else if c.LongBreakInterval < 2 then
    some { Field := "LongBreakInterval", Message := "must be at least 2" }
  else if c.LongBreakInterval > 10 then
    some { Field := "LongBreakInterval", Message := "must be less than 10" }
  else if c.LongBreak ≤ c.ShortBreak then
    some { Field := "LongBreak", Message := "must be longer than short break" }
  else none

/-- Mirrors `Config.GetNextBreakType`: long break iff
`pomodoroNumber % c.LongBreakInterval == 0` (Go's `%` is truncated
remainder, `Int.tmod`). -/
def Config.GetNextBreakType (c : Config) (pomodoroNumber : Int) : Int × Bool :=
  if Int.tmod pomodoroNumber c.LongBreakInterval = 0 then (c.LongBreak, true)
  else (c.ShortBreak, false)

/-! ### Statistics accumulator (`package stats`, src/stats/stats.go) -/

/-- Mirrors `stats.CompletedSession`, minus the two `time.Time` fields (see
module comment). -/
structure CompletedSession where
  type : String
  duration : Int
  actualTime : Int
  completed : Bool
deriving DecidableEq, Repr

/-- Mirrors `stats.SessionStats`, minus `SessionStartTime` (wall clock). -/
structure SessionStats where
  PomodorosCompleted : Int
  PomodorosSkipped : Int
  BreaksCompleted : Int
  BreaksSkipped : Int
  LongBreaksCompleted : Int
  TotalWorkTime : Int
  TotalBreakTime : Int
  CurrentStreakCount : Int
  BestStreakCount : Int
  CompletedSessions : List CompletedSession
deriving DecidableEq, Repr

/-- Mirrors `stats.StatsSnapshot`, minus `SessionDuration` (wall clock). -/
structure StatsSnapshot where
  PomodorosCompleted : Int
  PomodorosSkipped : Int
  BreaksCompleted : Int
  BreaksSkipped : Int
  LongBreaksCompleted : Int
  CurrentStreak : Int
  BestStreak : Int
  TotalWorkTime : Int
  TotalBreakTime : Int
  WorkEfficiency : ℚ
  TotalSessions : Int
deriving DecidableEq, Repr

/-- Mirrors `stats.NewSessionStats`: every counter zero, empty history. -/
def NewSessionStats : SessionStats :=
  { PomodorosCompleted := 0, PomodorosSkipped := 0, BreaksCompleted := 0
    BreaksSkipped := 0, LongBreaksCompleted := 0, TotalWorkTime := 0
    TotalBreakTime := 0, CurrentStreakCount := 0, BestStreakCount := 0
    CompletedSessions := [] }

/-- Mirrors `SessionStats.AddCompletedPomodoro`: bump the completed counter
and work time, extend the streak (raising the best streak when exceeded),
and append a completed TRABAJO record. -/
def SessionStats.AddCompletedPomodoro (s : SessionStats) (duration actualTime : Int) : SessionStats :=
  let cur := s.CurrentStreakCount + 1
  { s with
    PomodorosCompleted := s.PomodorosCompleted + 1
    TotalWorkTime := s.TotalWorkTime + actualTime
    CurrentStreakCount := cur
    BestStreakCount := if cur > s.BestStreakCount then cur else s.BestStreakCount
    CompletedSessions := s.CompletedSessions ++
      [{ type := "TRABAJO", duration := duration, actualTime := actualTime, completed := true }] }

/-- Mirrors `SessionStats.AddSkippedPomodoro`: bump the skipped counter and
work time, reset the current streak to zero, append a skipped record. -/
def SessionStats.AddSkippedPomodoro (s : SessionStats) (duration actualTime : Int) : SessionStats :=
  { s with
    PomodorosSkipped := s.PomodorosSkipped + 1
    TotalWorkTime := s.TotalWorkTime + actualTime
    CurrentStreakCount := 0
    CompletedSessions := s.CompletedSessions ++
      [{ type := "TRABAJO", duration := duration, actualTime := actualTime, completed := false }] }

/-- Mirrors `SessionStats.AddCompletedBreak`: bump the break counter and
break time, count long breaks separately, append a completed record. -/
def SessionStats.AddCompletedBreak (s : SessionStats) (breakType : String) (duration actualTime : Int) : SessionStats :=
  { s with
    BreaksCompleted := s.BreaksCompleted + 1
    TotalBreakTime := s.TotalBreakTime + actualTime
    LongBreaksCompleted :=
      if breakType = "DESCANSO LARGO" then s.LongBreaksCompleted + 1
      else s.LongBreaksCompleted
    CompletedSessions := s.CompletedSessions ++
      [{ type := breakType, duration := duration, actualTime := actualTime, completed := true }] }

/-- Mirrors `SessionStats.AddSkippedBreak`. -/
def SessionStats.AddSkippedBreak (s : SessionStats) (breakType : String) (duration actualTime : Int) : SessionStats :=
  { s with
    BreaksSkipped := s.BreaksSkipped + 1
    TotalBreakTime := s.TotalBreakTime + actualTime
    CompletedSessions := s.CompletedSessions ++
      [{ type := breakType, duration := duration, actualTime := actualTime, completed := false }] }

/-- Mirrors `SessionStats.Reset`: every counter back to zero, history
emptied (the wall-clock restart concerns an omitted field). -/
def SessionStats.Reset (s : SessionStats) : SessionStats :=
  { s with
    PomodorosCompleted := 0, PomodorosSkipped := 0, BreaksCompleted := 0
    BreaksSkipped := 0, LongBreaksCompleted := 0, TotalWorkTime := 0
    TotalBreakTime := 0, CurrentStreakCount := 0, BestStreakCount := 0
    CompletedSessions := [] }

/-- Mirrors `getTotalSessions`: the sum of the four basic counters. -/
def SessionStats.getTotalSessions (s : SessionStats) : Int :=
  s.PomodorosCompleted + s.PomodorosSkipped + s.BreaksCompleted + s.BreaksSkipped

/-- Mirrors `calculateWorkEfficiency`: completed / (completed + skipped)
pomodoros as a percentage, 0 when none recorded. -/
def SessionStats.calculateWorkEfficiency (s : SessionStats) : ℚ :=
  let total := s.PomodorosCompleted + s.PomodorosSkipped
  if total = 0 then 0
  else ((s.PomodorosCompleted : ℚ) / (total : ℚ)) * 100

/-- Mirrors `SessionStats.GetSnapshot` on the embedded fields. -/
def SessionStats.GetSnapshot (s : SessionStats) : StatsSnapshot :=
  { PomodorosCompleted := s.PomodorosCompleted
    PomodorosSkipped := s.PomodorosSkipped
    BreaksCompleted := s.BreaksCompleted
    BreaksSkipped := s.BreaksSkipped
    LongBreaksCompleted := s.LongBreaksCompleted
    CurrentStreak := s.CurrentStreakCount
    BestStreak := s.BestStreakCount
    TotalWorkTime := s.TotalWorkTime
    TotalBreakTime := s.TotalBreakTime
    WorkEfficiency := s.calculateWorkEfficiency
    TotalSessions := s.getTotalSessions }

/-- The accumulator's mutating operations, for quantifying over call
sequences (`reset` included; a recording-only sequence is singled out with
`StatOp.isRecording`). -/
inductive StatOp
  | completedPomodoro (duration actualTime : Int)
  | skippedPomodoro (duration actualTime : Int)
  | completedBreak (breakType : String) (duration actualTime : Int)
  | skippedBreak (breakType : String) (duration actualTime : Int)
  | reset
deriving DecidableEq, Repr

/-- Apply one accumulator operation. -/
def applyStatOp (s : SessionStats) : StatOp → SessionStats
  | StatOp.completedPomodoro d a => s.AddCompletedPomodoro d a
  | StatOp.skippedPomodoro d a => s.AddSkippedPomodoro d a
  | StatOp.completedBreak ty d a => s.AddCompletedBreak ty d a
  | StatOp.skippedBreak ty d a => s.AddSkippedBreak ty d a
  | StatOp.reset => s.Reset

/-- Apply a sequence of accumulator operations, first element first. -/
def applyStatOps (s : SessionStats) (ops : List StatOp) : SessionStats :=
  ops.foldl applyStatOp s

/-- True for the four recording operations, false for `reset`. -/
def StatOp.isRecording : StatOp → Bool
  | StatOp.reset => false
  | _ => true

/-! ### Event bus (`package events`, src/events/events.go) -/

/-- Mirrors `events.EventBus` over an arbitrary handler type `H`: the
`handlers` Go map (`EventType → []EventHandler`) as an association list and
the `global` wildcard handler list.  Event types are the strings of
`events.EventType`. -/
structure EventBus (H : Type) where
  handlers : List (String × List H)
  global : List H

/-- Lookup in the handlers map; a missing key yields the empty list, like
indexing a Go map of slices. -/
def busLookup {H : Type} : List (String × List H) → String → List H
  | [], _ => []
  | p :: rest, k => if p.1 = k then p.2 else busLookup rest k

/-- True when the key is present, like the `, exists :=` form of a Go map
index. -/
def busContains {H : Type} : List (String × List H) → String → Bool
  | [], _ => false
  | p :: rest, k => if p.1 = k then true else busContains rest k

/-- Store a value under a key (Go map assignment). -/
def busStore {H : Type} : List (String × List H) → String → List H → List (String × List H)
  | [], k, v => [(k, v)]
  | p :: rest, k, v => if p.1 = k then (k, v) :: rest else p :: busStore rest k v

/-- Mirrors `events.NewEventBus`. -/
def NewEventBus (H : Type) : EventBus H :=
  { handlers := [], global := [] }

/-- Mirrors `EventBus.Subscribe`:
`eb.handlers[eventType] = append(eb.handlers[eventType], handler)`. -/
def EventBus.Subscribe {H : Type} (eb : EventBus H) (eventType : String) (handler : H) : EventBus H :=
  { eb with handlers := busStore eb.handlers eventType (busLookup eb.handlers eventType ++ [handler]) }

/-- Mirrors `EventBus.SubscribeGlobal`. -/
def EventBus.SubscribeGlobal {H : Type} (eb : EventBus H) (handler : H) : EventBus H :=
  { eb with global := eb.global ++ [handler] }

/-- The loop condition of `EventBus.Unsubscribe` is
`&handler == &targetHandler`: it compares the addresses of the range
variable `handler` and the parameter `targetHandler`, two distinct local
variables that are both live at the comparison, and the Go memory model
gives distinct live variables distinct addresses — so the comparison is
`false` for every pair of values. -/
def handlerVarAddrEq {H : Type} (handler targetHandler : H) : Bool :=
  false

/-- Remove the first element satisfying `p`, then stop — the loop body of
`Unsubscribe` (`append(handlers[:i], handlers[i+1:]...)` followed by
`break`). -/
def removeFirstWhere {H : Type} (p : H → Bool) : List H → List H
  | [] => []
  | h :: rest => if p h then rest else h :: removeFirstWhere p rest

/-- Mirrors `EventBus.Unsubscribe`: when the event type is present, scan its
handler list for an element whose *address* equals the target's address and
splice it out. -/
def EventBus.Unsubscribe {H : Type} (eb : EventBus H) (eventType : String) (targetHandler : H) : EventBus H :=
  if busContains eb.handlers eventType then
    let scanned :=
      removeFirstWhere (fun handler => handlerVarAddrEq handler targetHandler)
        (busLookup eb.handlers eventType)
    { eb with handlers := busStore eb.handlers eventType scanned }
  else eb

/-- Mirrors `EventBus.GetSubscriberCount`: `len(eb.handlers[eventType])`. -/
def EventBus.GetSubscriberCount {H : Type} (eb : EventBus H) (eventType : String) : Nat :=
  (busLookup eb.handlers eventType).length

/-- Mirrors `EventBus.GetGlobalSubscriberCount`. -/
def EventBus.GetGlobalSubscriberCount {H : Type} (eb : EventBus H) : Nat :=
  eb.global.length

/-! ### Session engine (`package engine`, src/core/engine/engine.go) -/

/-- Mirrors `engine.State`. -/
inductive EngineState
  | idle
  | running
  | paused
  | stopped
deriving DecidableEq, Repr

/-- Mirrors `engine.SessionType`. -/
inductive SessionType
  | work
  | shortBreak
  | longBreak
deriving DecidableEq, Repr

/-- Mirrors the engine-state fields of `engine.Engine`.  The stats manager,
event bus, wall-clock fields, context, and channels are omitted: no claim
below relates them to the fields kept, and the stats updates are verified
against the `SessionStats` model directly. -/
structure Engine where
  config : Config
  state : EngineState
  currentSession : SessionType
  pomodoroCount : Int
  isRunning : Bool
  currentTimer : Option Timer
deriving DecidableEq, Repr

/-- Mirrors the engine constructed by `NewEngine` from an already valid
configuration (on an invalid one the Go constructor panics). -/
def NewEngine (cfg : Config) : Engine :=
  { config := cfg, state := EngineState.idle, currentSession := SessionType.work
    pomodoroCount := 0, isRunning := false, currentTimer := none }

/-- Mirrors `updateStateFromSession`: every session kind maps the engine
state to running. -/
def stateFromSession : SessionType → EngineState
  | SessionType.work => EngineState.running
  | SessionType.shortBreak => EngineState.running
  | SessionType.longBreak => EngineState.running

/-- Mirrors `Engine.Start` (always returns nil): a no-op when already
running, otherwise the engine becomes running with a fresh counter, state
idle, and session kind work.  (Context setup and the event-loop goroutine
concern omitted fields.) -/
def Engine.Start (e : Engine) : Engine :=
  if e.isRunning then e
  else { e with isRunning := true, state := EngineState.idle
                pomodoroCount := 0, currentSession := SessionType.work }

/-- Mirrors `Engine.Stop` (always returns nil): a no-op when not running,
otherwise clear the running flag, move to stopped, and stop any active
timer. -/
def Engine.Stop (e : Engine) : Engine :=
  if e.isRunning = false then e
  else { e with isRunning := false, state := EngineState.stopped
                currentTimer := e.currentTimer.map Timer.Stop }

/-- Mirrors `startNextSession`: bail out when not running; pick work for the
first interval, the configured break kind after work (incrementing the
counter first), and work after any break; then create and start a fresh
timer and set the engine state via `updateStateFromSession`. -/
def Engine.startNextSession (e : Engine) : Engine :=
  if e.isRunning = false then e
  else
    let choice : SessionType × Int × Int :=
      match e.currentTimer with
      | none => (SessionType.work, e.config.WorkDuration, e.pomodoroCount)
      | some _ =>
        if e.currentSession = SessionType.work then
          let n := e.pomodoroCount + 1
          let br := e.config.GetNextBreakType n
          ((if br.2 then SessionType.longBreak else SessionType.shortBreak), br.1, n)
        else (SessionType.work, e.config.WorkDuration, e.pomodoroCount)
    { e with currentSession := choice.1
             pomodoroCount := choice.2.2
             state := stateFromSession choice.1
             currentTimer := some ((NewTimer choice.2.1).Start) }

/-- Mirrors `Engine.StartFirstSession`: error when the engine is not
running; nil without any change when a timer already exists; otherwise nil
and the first session is started (the source dispatches `startNextSession`
on a goroutine; its completed effect is modelled). -/
def Engine.StartFirstSession (e : Engine) : Except String Engine :=
  if e.isRunning = false then Except.error "engine not running"
  else if e.currentTimer ≠ none then Except.ok e
  else Except.ok e.startNextSession

/-- Mirrors `pauseCurrentTimer` (always returns nil): only a running,
unpaused active timer is paused, moving the engine state to paused. -/
def Engine.pauseCurrentTimer (e : Engine) : Except String Engine :=
  match e.currentTimer with
  | some t =>
    if t.state = TimerState.running ∧ ¬t.state = TimerState.paused then
      Except.ok { e with currentTimer := some t.Pause, state := EngineState.paused }
    else Except.ok e
  | none => Except.ok e

/-- Mirrors `resumeCurrentTimer` (always returns nil): only a paused active
timer is resumed, with the engine state recomputed from the session kind. -/
def Engine.resumeCurrentTimer (e : Engine) : Except String Engine :=
  match e.currentTimer with
  | some t =>
    if t.state = TimerState.paused then
      Except.ok { e with currentTimer := some t.Resume
                         state := stateFromSession e.currentSession }
    else Except.ok e
  | none => Except.ok e

/-- Mirrors `skipCurrentTimer` (always returns nil): only a running or
paused active timer is skipped. -/
def Engine.skipCurrentTimer (e : Engine) : Except String Engine :=
  match e.currentTimer with
  | some t =>
    if t.state = TimerState.running ∨ t.state = TimerState.paused then
      Except.ok { e with currentTimer := some t.Skip }
    else Except.ok e
  | none => Except.ok e

/-- Mirrors `handleCommand`, dispatching on the action string. -/
def Engine.handleCommand (e : Engine) (action : String) : Except String Engine :=
  if action = "pause" then e.pauseCurrentTimer
  else if action = "resume" then e.resumeCurrentTimer
  else if action = "skip" then e.skipCurrentTimer
  else Except.error ("unknown command: " ++ action)

/-- Mirrors `sendCommand`: an immediate error when the engine is not
running, otherwise the command is handed to the event loop and its result
returned to the caller (the synchronous channel round trip collapses to a
direct call). -/
def Engine.sendCommand (e : Engine) (action : String) : Except String Engine :=
  if e.isRunning = false then Except.error "engine is not running"
  else e.handleCommand action

/-- Mirrors `Engine.Pause`. -/
def Engine.Pause (e : Engine) : Except String Engine :=
  e.sendCommand "pause"

/-- Mirrors `Engine.Resume`. -/
def Engine.Resume (e : Engine) : Except String Engine :=
  e.sendCommand "resume"

/-- Mirrors `Engine.Skip`. -/
def Engine.Skip (e : Engine) : Except String Engine :=
  e.sendCommand "skip"

/-! ## Theorems -/

/-! ### C2: configuration validation -/

/-- The constraints attached to each named configuration field; a
`ValidationError` names its offending field when that field's constraints
fail. -/
def fieldViolated (c : Config) (f : String) : Prop :=
  (f = "WorkDuration" ∧ (c.WorkDuration < 1 * minute ∨ c.WorkDuration > 120 * minute)) ∨
  (f = "ShortBreak" ∧ (c.ShortBreak < 1 * minute ∨ c.ShortBreak > 30 * minute)) ∨
  (f = "LongBreak" ∧ (c.LongBreak < 5 * minute ∨ c.LongBreak > 60 * minute ∨ c.LongBreak ≤ c.ShortBreak)) ∨
  (f = "LongBreakInterval" ∧ (c.LongBreakInterval < 2 ∨ c.LongBreakInterval > 10))

set_option maxHeartbeats 1000000 in
/-- C2: `Validate` succeeds exactly when the work duration is in
[1min, 120min], the short break in [1min, 30min], the long break in
[5min, 60min], the long break strictly exceeds the short break, and the
interval is in [2, 10]; and whenever it fails, the returned validation
error names a field whose constraints the configuration violates. -/
theorem config_validate_iff (c : Config) :
    (c.Validate = none ↔
      (1 * minute ≤ c.WorkDuration ∧ c.WorkDuration ≤ 120 * minute ∧
       1 * minute ≤ c.ShortBreak ∧ c.ShortBreak ≤ 30 * minute ∧
       5 * minute ≤ c.LongBreak ∧ c.LongBreak ≤ 60 * minute ∧
       c.ShortBreak < c.LongBreak ∧
       2 ≤ c.LongBreakInterval ∧ c.LongBreakInterval ≤ 10)) ∧
    (∀ err : ValidationError, c.Validate = some err → fieldViolated c err.Field) := by
  constructor
  · unfold Config.Validate
    split_ifs with h1 h2 h3 h4 h5 h6 h7 h8 h9 <;> simp <;> omega
  · intro err h
    unfold fieldViolated
    unfold Config.Validate at h
    split_ifs at h with h1 h2 h3 h4 h5 h6 h7 h8 h9 <;>
      simp only [Option.some.injEq] at h <;> subst h
    · exact Or.inl ⟨rfl, Or.inl h1⟩
    · exact Or.inl ⟨rfl, Or.inr h2⟩
    · exact Or.inr (Or.inl ⟨rfl, Or.inl h3⟩)
    · exact Or.inr (Or.inl ⟨rfl, Or.inr h4⟩)
    · exact Or.inr (Or.inr (Or.inl ⟨rfl, Or.inl h5⟩))
    · exact Or.inr (Or.inr (Or.inl ⟨rfl, Or.inr (Or.inl h6)⟩))
    · exact Or.inr (Or.inr (Or.inr ⟨rfl, Or.inl h7⟩))
    · exact Or.inr (Or.inr (Or.inr ⟨rfl, Or.inr h8⟩))
    · exact Or.inr (Or.inr (Or.inl ⟨rfl, Or.inr (Or.inr h9)⟩))

/-- C2 witness: the theorem applied to a configuration that fails the first
check, and to the default configuration, which passes all of them. -/
theorem config_validate_iff_witness :
    fieldViolated { WorkDuration := 0, ShortBreak := 0, LongBreak := 0, LongBreakInterval := 0 } "WorkDuration" ∧
    DefaultConfig.Validate = none :=
  ⟨(config_validate_iff { WorkDuration := 0, ShortBreak := 0, LongBreak := 0, LongBreakInterval := 0 }).2
      { Field := "WorkDuration", Message := "must be at least 1 minute" } (by decide),
   (config_validate_iff DefaultConfig).1.mpr (by decide)⟩

/-! ### C9: total session count bookkeeping -/

/-- The count invariant: the four basic counters sum to the history
length. -/
def statsCountInv (s : SessionStats) : Prop :=
  s.PomodorosCompleted + s.PomodorosSkipped + s.BreaksCompleted + s.BreaksSkipped =
    (s.CompletedSessions.length : Int)

theorem statsCountInv_apply (s : SessionStats) (op : StatOp)
    (h : statsCountInv s) : statsCountInv (applyStatOp s op) := by
  cases op <;>
    simp only [statsCountInv, applyStatOp, SessionStats.AddCompletedPomodoro,
      SessionStats.AddSkippedPomodoro, SessionStats.AddCompletedBreak,
      SessionStats.AddSkippedBreak, SessionStats.Reset, List.length_append,
      List.length_cons, List.length_nil] at h ⊢ <;>
    push_cast <;> omega

theorem statsCountInv_ops (ops : List StatOp) :
    ∀ s : SessionStats, statsCountInv s → statsCountInv (applyStatOps s ops) := by
  induction ops with
  | nil => intro s h; exact h
  | cons op rest ih =>
    intro s h
    exact ih (applyStatOp s op) (statsCountInv_apply s op h)

/-- C9: starting from a fresh accumulator, after any sequence of
accumulator operations (the four recording operations and reset — which
covers every recording-only sequence after a reset as well), the four basic
counters sum to the history length, so the snapshot's `TotalSessions`
equals the number of recorded interval entries. -/
theorem stats_total_sessions (ops : List StatOp) :
    (applyStatOps NewSessionStats ops).PomodorosCompleted +
      (applyStatOps NewSessionStats ops).PomodorosSkipped +
      (applyStatOps NewSessionStats ops).BreaksCompleted +
      (applyStatOps NewSessionStats ops).BreaksSkipped =
      ((applyStatOps NewSessionStats ops).CompletedSessions.length : Int) ∧
    (applyStatOps NewSessionStats ops).GetSnapshot.TotalSessions =
      ((applyStatOps NewSessionStats ops).CompletedSessions.length : Int) := by
  have h : statsCountInv (applyStatOps NewSessionStats ops) :=
    statsCountInv_ops ops NewSessionStats (by simp [statsCountInv, NewSessionStats])
  exact ⟨h, h⟩

/-! ### C10: Unsubscribe never removes a handler -/

theorem removeFirstWhere_addrEq {H : Type} (target : H) (l : List H) :
    removeFirstWhere (fun handler => handlerVarAddrEq handler target) l = l := by
  induction l with
  | nil => rfl
  | cons h rest ih => simpa [removeFirstWhere, handlerVarAddrEq] using ih

theorem busStore_lookup_self {H : Type} (m : List (String × List H)) (k : String)
    (hm : busContains m k = true) : busStore m k (busLookup m k) = m := by
  induction m with
  | nil => simp [busContains] at hm
  | cons p rest ih =>
    by_cases hp : p.1 = k
    · cases p with
      | mk k1 v =>
        simp only at hp
        subst hp
        simp [busStore, busLookup]
    · simp only [busContains, hp, if_false] at hm
      simp [busStore, busLookup, hp, ih hm]

/-- C10: `Unsubscribe` never removes anything — the bus after the call is
the bus before it, so in particular every event type's subscriber count
(and the global count) is unchanged, because the loop compares the
addresses of two distinct live local variables, which are never equal. -/
theorem unsubscribe_never_removes {H : Type} (eb : EventBus H) (eventType : String)
    (targetHandler : H) :
    eb.Unsubscribe eventType targetHandler = eb ∧
    (∀ ty : String, (eb.Unsubscribe eventType targetHandler).GetSubscriberCount ty =
      eb.GetSubscriberCount ty) ∧
    (eb.Unsubscribe eventType targetHandler).GetGlobalSubscriberCount =
      eb.GetGlobalSubscriberCount := by
  have heq : eb.Unsubscribe eventType targetHandler = eb := by
    unfold EventBus.Unsubscribe
    by_cases hc : busContains eb.handlers eventType = true
    · simp only [hc, if_true, removeFirstWhere_addrEq, busStore_lookup_self eb.handlers eventType hc]
    · simp only [hc, if_false]
      simp at hc
      simp [hc]
  exact ⟨heq, fun ty => by rw [heq], by rw [heq]⟩

/-! ### C3: countdown, pause, and skip semantics of the timer -/

theorem tickN_succ (n : Nat) (t : Timer) : tickN (n + 1) t = tickN n t.Tick := rfl

theorem tick_paused (t : Timer) (hp : t.state = TimerState.paused) : t.Tick = t := by
  unfold Timer.Tick
  rw [if_neg]
  rw [hp]
  simp

theorem tickN_paused (t : Timer) (hp : t.state = TimerState.paused) (n : Nat) :
    tickN n t = t := by
  induction n with
  | zero => rfl
  | succ n ih =>
    rw [tickN_succ, tick_paused t hp, ih]

theorem tickN_countdown (k : Nat) (hk : 1 ≤ k) :
    ∀ t : Timer, t.state = TimerState.running → t.remaining = (k : Int) * second →
      (tickN k t).state = TimerState.done ∧ (tickN k t).remaining = 0 := by
  induction k with
  | zero => omega
  | succ n ih =>
    intro t ht hr
    have hpos : (0 : Int) < t.remaining := by
      rw [hr]
      simp only [second]
      omega
    by_cases hn : n = 0
    · subst hn
      have htick : t.Tick = { t with remaining := 0, state := TimerState.done } := by
        unfold Timer.Tick
        rw [if_pos ⟨ht, hpos⟩]
        have h0 : t.remaining - second = 0 := by rw [hr]; simp
        rw [h0]
        simp
      rw [tickN_succ]
      rw [htick]
      exact ⟨rfl, rfl⟩
    · have hn1 : 1 ≤ n := by omega
      have hstep : t.remaining - second = ((n : Nat) : Int) * second := by
        rw [hr]
        push_cast
        ring
      have hpos2 : ¬t.remaining - second ≤ 0 := by
        rw [hstep]
        simp only [second, not_le]
        omega
      have htick : t.Tick = { t with remaining := t.remaining - second } := by
        unfold Timer.Tick
        rw [if_pos ⟨ht, hpos⟩]
        rw [if_neg hpos2]
      rw [tickN_succ, htick]
      exact ih hn1 _ ht hstep

/-- C3 counterexample: a countdown timer created with a duration of 0 whole
seconds and started is still running — not done — after exactly 0 calls to
`Tick`, so the claim fails for whole-second duration D = 0. -/
theorem timer_zero_duration_counterexample :
    (tickN 0 ((NewTimer ((0 : Int) * second)).Start)).state ≠ TimerState.done := by decide

/-- C3 (amended to durations of at least one second): a started timer of D
whole seconds reaches the done state after exactly D ticks; any number of
ticks on a paused timer changes neither its remaining time nor its state;
and Skip from running or paused yields the skipped state and is idempotent
from then on. -/
theorem timer_countdown_spec (D : Nat) (hD : 1 ≤ D) :
    (tickN D ((NewTimer ((D : Int) * second)).Start)).state = TimerState.done ∧
    (∀ (t : Timer) (n : Nat), t.state = TimerState.paused →
      (tickN n t).remaining = t.remaining ∧ (tickN n t).state = TimerState.paused) ∧
    (∀ t : Timer, t.state = TimerState.running ∨ t.state = TimerState.paused →
      t.Skip.state = TimerState.skipped ∧ t.Skip.Skip = t.Skip) := by
  refine ⟨?_, ?_, ?_⟩
  · have hs : ((NewTimer ((D : Int) * second)).Start).state = TimerState.running := by
      simp [NewTimer, Timer.Start]
    have hr : ((NewTimer ((D : Int) * second)).Start).remaining = (D : Int) * second := by
      simp [NewTimer, Timer.Start]
    exact (tickN_countdown D hD _ hs hr).1
  · intro t n hp
    rw [tickN_paused t hp n]
    exact ⟨rfl, hp⟩
  · intro t h
    have hskip : t.Skip = { t with state := TimerState.skipped } := by
      unfold Timer.Skip
      rw [if_pos h]
    constructor
    · rw [hskip]
    · rw [hskip]
      unfold Timer.Skip
      rw [if_neg]
      simp

/-- C3 witness: the amended theorem applied at D = 2: two ticks drive a
freshly started two-second timer to done. -/
theorem timer_countdown_spec_witness :
    1 ≤ 2 ∧ (tickN 2 ((NewTimer ((2 : Int) * second)).Start)).state = TimerState.done :=
  ⟨by decide, (timer_countdown_spec 2 (by decide)).1⟩

/-! ### C4: remaining stays within [0, duration]; progress within [0, 1] -/

/-- The invariant that makes the claim true: the timer was created with a
whole number D of seconds and its remaining time is always a whole number
of seconds between 0 and D. -/
def wholeSecondsInv (D : Nat) (t : Timer) : Prop :=
  t.duration = (D : Int) * second ∧ ∃ k : Nat, k ≤ D ∧ t.remaining = (k : Int) * second

theorem Start_duration (t : Timer) : t.Start.duration = t.duration := by
  unfold Timer.Start
  split <;> rfl

theorem Start_remaining (t : Timer) : t.Start.remaining = t.remaining := by
  unfold Timer.Start
  split <;> rfl

theorem Pause_duration (t : Timer) : t.Pause.duration = t.duration := by
  unfold Timer.Pause
  split <;> rfl

theorem Pause_remaining (t : Timer) : t.Pause.remaining = t.remaining := by
  unfold Timer.Pause
  split <;> rfl

theorem Skip_duration (t : Timer) : t.Skip.duration = t.duration := by
  unfold Timer.Skip
  split <;> rfl

theorem Skip_remaining (t : Timer) : t.Skip.remaining = t.remaining := by
  unfold Timer.Skip
  split <;> rfl

theorem Tick_duration (t : Timer) : t.Tick.duration = t.duration := by
  unfold Timer.Tick
  split
  · dsimp only
    split <;> rfl
  · rfl

theorem wholeSecondsInv_apply (D : Nat) (t : Timer) (op : TimerOp)
    (h : wholeSecondsInv D t) : wholeSecondsInv D (applyTimerOp t op) := by
  obtain ⟨hd, k, hk, hr⟩ := h
  cases op with
  | start =>
    exact ⟨by simp only [applyTimerOp, Start_duration]; exact hd, k, hk,
      by simp only [applyTimerOp, Start_remaining]; exact hr⟩
  | pause =>
    exact ⟨by simp only [applyTimerOp, Pause_duration]; exact hd, k, hk,
      by simp only [applyTimerOp, Pause_remaining]; exact hr⟩
  | resume =>
    exact ⟨by simp only [applyTimerOp, Timer.Resume, Start_duration]; exact hd, k, hk,
      by simp only [applyTimerOp, Timer.Resume, Start_remaining]; exact hr⟩
  | skip =>
    exact ⟨by simp only [applyTimerOp, Skip_duration]; exact hd, k, hk,
      by simp only [applyTimerOp, Skip_remaining]; exact hr⟩
  | stop =>
    exact ⟨hd, D, le_refl D, hd⟩
  | reset =>
    exact ⟨hd, D, le_refl D, hd⟩
  | tick =>
    show wholeSecondsInv D t.Tick
    unfold wholeSecondsInv Timer.Tick
    split
    case isTrue hcond =>
      have hk1 : 1 ≤ k := by
        rcases Nat.eq_zero_or_pos k with h0 | h1
        · subst h0
          simp only [Nat.cast_zero, zero_mul] at hr
          rw [hr] at hcond
          exact absurd hcond.2 (by simp)
        · exact h1
      have hstep : t.remaining - second = ((k - 1 : Nat) : Int) * second := by
        rw [hr, Nat.cast_sub hk1]
        push_cast
        ring
      dsimp only
      split <;> exact ⟨hd, k - 1, by omega, hstep⟩
    case isFalse => exact ⟨hd, k, hk, hr⟩

theorem wholeSecondsInv_ops (D : Nat) (ops : List TimerOp) :
    ∀ t : Timer, wholeSecondsInv D t → wholeSecondsInv D (applyTimerOps t ops) := by
  induction ops with
  | nil => intro t h; exact h
  | cons op rest ih =>
    intro t h
    exact ih (applyTimerOp t op) (wholeSecondsInv_apply D t op h)

/-- C4 counterexample: a timer created with half a second (500000000 ns —
time.Duration admits any nanosecond count) that is started and ticked once
has remaining −0.5 s, strictly below zero, and its snapshot progress is 2,
strictly above 1 — refuting the claim for arbitrary durations. -/
theorem timer_fractional_counterexample :
    (applyTimerOps (NewTimer 500000000) [TimerOp.start, TimerOp.tick]).remaining < 0 ∧
    1 < (applyTimerOps (NewTimer 500000000) [TimerOp.start, TimerOp.tick]).Progress := by
  have h : applyTimerOps (NewTimer 500000000) [TimerOp.start, TimerOp.tick] =
      { duration := 500000000, remaining := -500000000, state := TimerState.done } := by
    decide
  rw [h]
  constructor
  · decide
  · show (1 : ℚ) < Timer.Progress { duration := 500000000, remaining := -500000000, state := TimerState.done }
    unfold Timer.Progress
    norm_num

/-- C4 (amended to timers created with a whole number of seconds): under
every operation sequence the remaining time stays within [0, duration] and
the snapshot progress ratio stays within [0, 1]. -/
theorem timer_bounds_spec (D : Nat) (ops : List TimerOp) :
    0 ≤ (applyTimerOps (NewTimer ((D : Int) * second)) ops).remaining ∧
    (applyTimerOps (NewTimer ((D : Int) * second)) ops).remaining ≤
      (applyTimerOps (NewTimer ((D : Int) * second)) ops).duration ∧
    0 ≤ (applyTimerOps (NewTimer ((D : Int) * second)) ops).Progress ∧
    (applyTimerOps (NewTimer ((D : Int) * second)) ops).Progress ≤ 1 := by
  obtain ⟨hd, k, hk, hr⟩ :=
    wholeSecondsInv_ops D ops (NewTimer ((D : Int) * second)) ⟨rfl, D, le_refl D, rfl⟩
  have hsec : (0 : Int) ≤ second := by decide
  have h0 : 0 ≤ (applyTimerOps (NewTimer ((D : Int) * second)) ops).remaining := by
    rw [hr]
    exact mul_nonneg (Int.natCast_nonneg k) hsec
  have h1 : (applyTimerOps (NewTimer ((D : Int) * second)) ops).remaining ≤
      (applyTimerOps (NewTimer ((D : Int) * second)) ops).duration := by
    rw [hr, hd]
    have hkD : (k : Int) ≤ (D : Int) := by exact_mod_cast hk
    exact mul_le_mul_of_nonneg_right hkD hsec
  refine ⟨h0, h1, ?_, ?_⟩
  · unfold Timer.Progress
    split
    case isTrue hdur =>
      apply div_nonneg
      · have := sub_nonneg.mpr h1
        exact_mod_cast this
      · have := le_of_lt hdur
        exact_mod_cast this
    case isFalse => exact le_refl 0
  · unfold Timer.Progress
    split
    case isTrue hdur =>
      rw [div_le_one (by exact_mod_cast hdur)]
      have : (applyTimerOps (NewTimer ((D : Int) * second)) ops).duration -
          (applyTimerOps (NewTimer ((D : Int) * second)) ops).remaining ≤
          (applyTimerOps (NewTimer ((D : Int) * second)) ops).duration := by omega
      exact_mod_cast this
    case isFalse => exact zero_le_one

/-! ### C5: streak bookkeeping -/

/-- The streak invariant: the current streak is non-negative and never
exceeds the best streak. -/
def streakInv (s : SessionStats) : Prop :=
  0 ≤ s.CurrentStreakCount ∧ s.CurrentStreakCount ≤ s.BestStreakCount

theorem streakInv_apply (s : SessionStats) (op : StatOp) (h : streakInv s) :
    streakInv (applyStatOp s op) := by
  obtain ⟨h0, h1⟩ := h
  cases op <;>
    simp only [streakInv, applyStatOp, SessionStats.AddCompletedPomodoro,
      SessionStats.AddSkippedPomodoro, SessionStats.AddCompletedBreak,
      SessionStats.AddSkippedBreak, SessionStats.Reset] <;>
    (try split_ifs) <;> omega

theorem streakInv_ops (ops : List StatOp) :
    ∀ s : SessionStats, streakInv s → streakInv (applyStatOps s ops) := by
  induction ops with
  | nil => intro s h; exact h
  | cons op rest ih =>
    intro s h
    exact ih (applyStatOp s op) (streakInv_apply s op h)

theorem bestStreak_mono_apply (s : SessionStats) (op : StatOp)
    (hop : op.isRecording = true) :
    s.BestStreakCount ≤ (applyStatOp s op).BestStreakCount := by
  cases op with
  | completedPomodoro d a =>
    simp only [applyStatOp, SessionStats.AddCompletedPomodoro]
    split_ifs <;> omega
  | skippedPomodoro d a => exact le_refl _
  | completedBreak ty d a => exact le_refl _
  | skippedBreak ty d a => exact le_refl _
  | reset => exact absurd hop (by simp [StatOp.isRecording])

theorem bestStreak_mono_ops (ops : List StatOp) :
    ∀ s : SessionStats, (∀ op ∈ ops, op.isRecording = true) →
      s.BestStreakCount ≤ (applyStatOps s ops).BestStreakCount := by
  induction ops with
  | nil => intro s _; exact le_refl _
  | cons op rest ih =>
    intro s h
    exact le_trans (bestStreak_mono_apply s op (h op (List.mem_cons_self op rest)))
      (ih (applyStatOp s op) fun o ho => h o (List.mem_cons_of_mem op ho))

/-- C5 counterexample: `Reset` is one of the accumulator's operations
(§4.3 lists it alongside the recording operations) and it zeroes the best
streak: after one completed pomodoro the best streak is 1, and a subsequent
reset lowers it to 0 — so the best streak does decrease across some
sequence of accumulator operations. -/
theorem stats_reset_counterexample :
    (applyStatOps NewSessionStats [StatOp.completedPomodoro 0 0]).BestStreakCount = 1 ∧
    (applyStatOps NewSessionStats [StatOp.completedPomodoro 0 0, StatOp.reset]).BestStreakCount = 0 := by
  decide

/-- C5 (amended: best-streak monotonicity holds across the four recording
operations, while Reset returns both streaks to zero): a skipped work
interval resets the current streak to 0; a completed one increments it;
the best streak never decreases under any sequence of the four recording
operations; and the best streak is at least the current streak at every
observation reachable from a fresh accumulator, Reset included. -/
theorem stats_streak_spec :
    (∀ (s : SessionStats) (d a : Int), (s.AddSkippedPomodoro d a).CurrentStreakCount = 0) ∧
    (∀ (s : SessionStats) (d a : Int),
      (s.AddCompletedPomodoro d a).CurrentStreakCount = s.CurrentStreakCount + 1) ∧
    (∀ (s : SessionStats) (ops : List StatOp), (∀ op ∈ ops, op.isRecording = true) →
      s.BestStreakCount ≤ (applyStatOps s ops).BestStreakCount) ∧
    (∀ ops : List StatOp,
      (applyStatOps NewSessionStats ops).CurrentStreakCount ≤
        (applyStatOps NewSessionStats ops).BestStreakCount) := by
  refine ⟨fun s d a => rfl, fun s d a => rfl, ?_, ?_⟩
  · intro s ops h
    exact bestStreak_mono_ops ops s h
  · intro ops
    exact (streakInv_ops ops NewSessionStats ⟨le_refl 0, le_refl 0⟩).2

/-- C5 witness: the monotonicity part of the amended theorem applied to a
fresh accumulator and the one-element recording sequence. -/
theorem stats_streak_spec_witness :
    NewSessionStats.BestStreakCount ≤
      (applyStatOps NewSessionStats [StatOp.completedPomodoro 0 0]).BestStreakCount :=
  stats_streak_spec.2.2.1 NewSessionStats [StatOp.completedPomodoro 0 0] (by decide)

/-! ### C1: interval alternation -/

/-- C1: for a running engine over a valid configuration with long-break
interval L, advancing past a work interval increments the work counter to
N = count + 1 and picks a long break exactly when N % L == 0 (a short break
otherwise); advancing past a break picks work; and when no interval has run
yet the first interval picked is work. -/
theorem engine_interval_alternation (e : Engine) (L : Int)
    (hv : e.config.Validate = none) (hL : e.config.LongBreakInterval = L)
    (hrun : e.isRunning = true) :
    (e.currentTimer = none →
      e.startNextSession.currentSession = SessionType.work ∧
      e.startNextSession.pomodoroCount = e.pomodoroCount) ∧
    (∀ t : Timer, e.currentTimer = some t → e.currentSession = SessionType.work →
      e.startNextSession.pomodoroCount = e.pomodoroCount + 1 ∧
      (e.startNextSession.currentSession = SessionType.longBreak ↔
        Int.tmod (e.pomodoroCount + 1) L = 0) ∧
      (e.startNextSession.currentSession = SessionType.shortBreak ↔
        ¬Int.tmod (e.pomodoroCount + 1) L = 0)) ∧
    (∀ t : Timer, e.currentTimer = some t → e.currentSession ≠ SessionType.work →
      e.startNextSession.currentSession = SessionType.work ∧
      e.startNextSession.pomodoroCount = e.pomodoroCount) := by
  subst hL
  refine ⟨?_, ?_, ?_⟩
  · intro hnone
    constructor <;> simp [Engine.startNextSession, hrun, hnone]
  · intro t ht hw
    by_cases hmod : Int.tmod (e.pomodoroCount + 1) e.config.LongBreakInterval = 0
    · refine ⟨?_, ?_, ?_⟩ <;>
        simp [Engine.startNextSession, hrun, ht, hw, Config.GetNextBreakType, hmod]
    · refine ⟨?_, ?_, ?_⟩ <;>
        simp [Engine.startNextSession, hrun, ht, hw, Config.GetNextBreakType, hmod]
  · intro t ht hw
    constructor <;> simp [Engine.startNextSession, hrun, ht, hw]

/-- A concrete running engine, three work intervals already completed, a
work interval active: used to instantiate the engine theorems. -/
def engineActive : Engine :=
  { config := DefaultConfig, state := EngineState.running
    currentSession := SessionType.work, pomodoroCount := 3, isRunning := true
    currentTimer := some ((NewTimer (25 * minute)).Start) }

/-- C1 witness: with the default configuration (interval 4) and three
completed work intervals, finishing the active work interval yields a long
break, since 4 % 4 == 0. -/
theorem engine_interval_alternation_witness :
    engineActive.startNextSession.currentSession = SessionType.longBreak :=
  ((engine_interval_alternation engineActive 4 (by decide) rfl rfl).2.1
    ((NewTimer (25 * minute)).Start) rfl rfl).2.1.mpr (by decide)

/-! ### C6: commands while not running, or with no active interval -/

/-- A concrete engine that is running but has no active interval. -/
def engineRunningNoTimer : Engine :=
  { config := DefaultConfig, state := EngineState.idle
    currentSession := SessionType.work, pomodoroCount := 0, isRunning := true
    currentTimer := none }

/-- C6 counterexample: on a running engine with no active interval, Pause,
Resume, and Skip all return nil (success, a silent no-op) — not the state
error the claim requires. -/
theorem engine_command_no_interval_counterexample :
    engineRunningNoTimer.isRunning = true ∧
    engineRunningNoTimer.currentTimer = none ∧
    engineRunningNoTimer.Pause = Except.ok engineRunningNoTimer ∧
    engineRunningNoTimer.Resume = Except.ok engineRunningNoTimer ∧
    engineRunningNoTimer.Skip = Except.ok engineRunningNoTimer :=
  ⟨rfl, rfl, rfl, rfl, rfl⟩

/-- C6 (amended: only the not-running half holds): Pause, Resume, and Skip
return an explicit error when the engine is not running; when the engine is
running with no active interval they return nil and leave the engine
unchanged. -/
theorem engine_command_errors (e : Engine) :
    (e.isRunning = false →
      e.Pause = Except.error "engine is not running" ∧
      e.Resume = Except.error "engine is not running" ∧
      e.Skip = Except.error "engine is not running") ∧
    (e.isRunning = true → e.currentTimer = none →
      e.Pause = Except.ok e ∧ e.Resume = Except.ok e ∧ e.Skip = Except.ok e) := by
  constructor
  · intro h
    refine ⟨?_, ?_, ?_⟩ <;>
      simp [Engine.Pause, Engine.Resume, Engine.Skip, Engine.sendCommand, h]
  · intro h hnone
    refine ⟨?_, ?_, ?_⟩ <;>
      simp [Engine.Pause, Engine.Resume, Engine.Skip, Engine.sendCommand,
        Engine.handleCommand, Engine.pauseCurrentTimer, Engine.resumeCurrentTimer,
        Engine.skipCurrentTimer, h, hnone]

/-- C6 witness: the amended theorem applied to a fresh (not yet running)
engine and to the running engine with no interval. -/
theorem engine_command_errors_witness :
    (NewEngine DefaultConfig).Pause = Except.error "engine is not running" ∧
    engineRunningNoTimer.Skip = Except.ok engineRunningNoTimer :=
  ⟨((engine_command_errors (NewEngine DefaultConfig)).1 rfl).1,
   ((engine_command_errors engineRunningNoTimer).2 rfl rfl).2.2⟩

/-! ### C7: StartFirstSession -/

/-- C7 counterexample: on a running engine with an interval already active,
StartFirstSession returns nil (success) — not an error as the claim
requires — and changes nothing. -/
theorem startFirstSession_existing_counterexample :
    engineActive.currentTimer ≠ none ∧
    engineActive.StartFirstSession = Except.ok engineActive :=
  ⟨by simp [engineActive], rfl⟩

/-- C7 (amended: the already-active case returns nil, not an error):
StartFirstSession errors when the engine is not running; returns nil
without changing the engine when an interval is already active; and when
running with no interval returns nil and starts the first work interval
with a fresh running timer over the configured work duration. -/
theorem startFirstSession_spec (e : Engine) :
    (e.isRunning = false → e.StartFirstSession = Except.error "engine not running") ∧
    (∀ t : Timer, e.isRunning = true → e.currentTimer = some t →
      e.StartFirstSession = Except.ok e) ∧
    (e.isRunning = true → e.currentTimer = none →
      e.StartFirstSession = Except.ok e.startNextSession ∧
      e.startNextSession.currentSession = SessionType.work ∧
      e.startNextSession.currentTimer = some ((NewTimer e.config.WorkDuration).Start) ∧
      ((NewTimer e.config.WorkDuration).Start).state = TimerState.running) := by
  refine ⟨?_, ?_, ?_⟩
  · intro h
    simp [Engine.StartFirstSession, h]
  · intro t h ht
    simp [Engine.StartFirstSession, h, ht]
  · intro h hnone
    refine ⟨?_, ?_, ?_, ?_⟩
    · simp [Engine.StartFirstSession, h, hnone]
    · simp [Engine.startNextSession, h, hnone]
    · simp [Engine.startNextSession, h, hnone]
    · simp [NewTimer, Timer.Start]

/-- C7 witness: the amended theorem applied to a fresh engine (not
running), and to a running engine with an active interval. -/
theorem startFirstSession_spec_witness :
    (NewEngine DefaultConfig).StartFirstSession = Except.error "engine not running" ∧
    engineActive.StartFirstSession = Except.ok engineActive :=
  ⟨(startFirstSession_spec (NewEngine DefaultConfig)).1 rfl,
   (startFirstSession_spec engineActive).2.1 ((NewTimer (25 * minute)).Start) rfl rfl⟩

/-! ### C8: is the stopped state terminal? -/

/-- C8 counterexample: stopping a running engine yields state stopped, but
a subsequent Start call restarts that same engine instance — its state
becomes idle and its running flag true — so stopped is not terminal. -/
theorem stopped_engine_restart_counterexample :
    (engineActive.Stop).state = EngineState.stopped ∧
    ((engineActive.Stop).Start).state = EngineState.idle ∧
    ((engineActive.Stop).Start).isRunning = true := by
  decide

/-- C8 (amended: stopped is terminal for every operation except Start): on
a stopped engine (running flag cleared), Pause, Resume, Skip, and
StartFirstSession all fail with an error and Stop is a no-op, but Start
restarts the engine, returning it to the idle state with the running flag
set. -/
theorem stopped_engine_spec (e : Engine) (hs : e.state = EngineState.stopped)
    (hr : e.isRunning = false) :
    e.Pause = Except.error "engine is not running" ∧
    e.Resume = Except.error "engine is not running" ∧
    e.Skip = Except.error "engine is not running" ∧
    e.StartFirstSession = Except.error "engine not running" ∧
    e.Stop = e ∧
    e.Start.isRunning = true ∧ e.Start.state = EngineState.idle := by
  refine ⟨?_, ?_, ?_, ?_, ?_, ?_, ?_⟩ <;>
    simp [Engine.Pause, Engine.Resume, Engine.Skip, Engine.sendCommand,
      Engine.StartFirstSession, Engine.Stop, Engine.Start, hr]

/-- C8 witness: the amended theorem applied to the concrete engine obtained
by stopping a running engine. -/
theorem stopped_engine_spec_witness :
    (engineActive.Stop).Start.isRunning = true :=
  (stopped_engine_spec engineActive.Stop (by decide) (by decide)).2.2.2.2.2.1

end Gomodoro
